import Mathlib

set_option maxRecDepth 8192

/-!
Shallow embedding of the admission-control webhook library (Go package
admissioncontrol) for checking its natural-language specification.

Conventions used throughout the embedding:

* Go maps from string to string are modelled as association lists
  (`List (String × String)`) with first-match lookup; Go map lookup of a
  missing key yields the zero value, modelled by `annGetD` returning the
  empty string.  A nil Go map and an empty Go map behave identically for
  every lookup the embedded code performs, so both are modelled as `[]`.
* Fallible Go calls returning `(T, error)` are modelled as
  `Except String T` when the caller discards the partial result on error
  (which the admission handler does for every AdmitFunc).
* Raw Kubernetes payload decoding (`runtime.Decoder.Decode`) is modelled
  by giving each decision function the already-decoded view of the object
  fields it reads; the HTTP handler model instead carries an abstract
  decoder so that decode failures stay representable.
* `json.Marshal` of patch operations and reviews is modelled structurally:
  the marshalled bytes are identified with the structured value, and an
  abstract `marshalError` field models the (in practice unreachable)
  failure branch of `json.Marshal` so that the 500 path stays
  representable.
-/

namespace AdmissionControl

/-- Association-list model of a Go `map[string]string`. -/
abbrev Annotations := List (String × String)

/-- First-match lookup, the model of `v, ok := m[k]`. -/
def annLookup (m : Annotations) (k : String) : Option String :=
  match m with
  | [] => none
  | (k2, v) :: rest => if k2 = k then some v else annLookup rest k

/-- Model of `m[k]` in value position: missing keys yield the zero value. -/
def annGetD (m : Annotations) (k : String) : String :=
  (annLookup m k).getD ""

/-- Model of `metav1.Status`; only the Message field is ever used. -/
structure Status where
  message : String
deriving DecidableEq

/-- The `Value interface\x7b\x7d` field of a patch operation: either a whole
map (the add branch) or a single string (the replace branch). -/
inductive PatchValue where
  | str (s : String)
  | map (m : Annotations)
deriving DecidableEq

/-- Model of `patchOperation` from admit_funcs.go. -/
structure PatchOperation where
  op : String
  path : String
  value : PatchValue
deriving DecidableEq

/-- Model of `admission.AdmissionResponse`: UID, Allowed, Result, Patch and
PatchType.  The Patch bytes are kept structurally as the list of patch
operations that `json.Marshal` would serialize. -/
structure AdmissionResponse where
  uid : String := ""
  allowed : Bool := false
  result : Option Status := none
  patch : Option (List PatchOperation) := none
  patchType : Option String := none
deriving DecidableEq

/-- Source `newDefaultDenyResponse`: Allowed false with an empty Result. -/
def newDefaultDenyResponse : AdmissionResponse :=
  { allowed := false, result := some ⟨""⟩ }

/-- Source `podDeniedError` message constant. -/
def podDeniedError : String := "the submitted Pods are missing required annotations:"

/-- Source `unsupportedKindError` message constant. -/
def unsupportedKindError : String := "the submitted Kind is not supported by this admission handler:"

/-- Source `clusterAutoScalerAnnotationKey` constant. -/
def clusterAutoScalerAnnotationKey : String := "cluster-autoscaler.kubernetes.io/safe-to-evict"

/-- CloudProvider is a Go `int`; GCP, Azure, AWS, OpenStack are iota 0..3.
Modelled as `Int` so that out-of-range providers are expressible, exactly
as any `CloudProvider(n)` value is in Go. -/
def GCP : Int := 0

/-- Azure provider constant (iota 1). -/
def Azure : Int := 1

/-- AWS provider constant (iota 2). -/
def AWS : Int := 2

/-- OpenStack provider constant (iota 3). -/
def OpenStack : Int := 3

/-- Source `ilbAnnotations` map: the internal-load-balancer annotation
key and value required for each supported provider.  Lookup of any other
provider value fails, modelling `_, ok := ilbAnnotations[provider]`. -/
def ilbAnnotations (provider : Int) : Option Annotations :=
  if provider = GCP then some [("cloud.google.com/load-balancer-type", "Internal")]
  else if provider = Azure then some [("service.beta.kubernetes.io/azure-load-balancer-internal", "true")]
  else if provider = AWS then some [("service.beta.kubernetes.io/aws-load-balancer-internal", "0.0.0.0/0")]
  else if provider = OpenStack then some [("service.beta.kubernetes.io/openstack-internal-load-balancer", "true")]
  else none

/-- Source `ensureHasAnnotations`: walks the required map, collecting the
entries whose key is absent or whose value differs, and reports whether
everything matched. -/
def ensureHasAnnotations (required annotations : Annotations) : Annotations × Bool :=
  let missing := required.foldl
    (fun acc kv =>
      match annLookup annotations kv.1 with
      | none => acc ++ [kv]
      | some existingVal => if existingVal ≠ kv.2 then acc ++ [kv] else acc)
    []
  if 0 < missing.length then (missing, false) else ([], true)

/-- Decoded view of the Service fields read by DenyPublicLoadBalancers:
metadata.namespace, metadata.annotations and spec.type.  The field `ns`
stands for the Kubernetes namespace (a Lean keyword). -/
structure ServiceObj where
  ns : String
  annotations : Annotations
  specType : String
deriving DecidableEq

/-- Source `DenyPublicLoadBalancers` (admit funcs file, current version):
type check first, then the namespace allow-list, then the provider lookup,
then the exact annotation check.  A Go return of `(resp, err)` with a
non-nil error is modelled as `Except.error` carrying the error text,
because the handler discards the response whenever the error is non-nil. -/
def DenyPublicLoadBalancers (ignoredNamespaces : List String) (provider : Int)
    (kind : String) (service : ServiceObj) : Except String AdmissionResponse :=
  if kind ≠ "Service" ∨ service.specType ≠ "LoadBalancer" then
    .ok { newDefaultDenyResponse with
          allowed := true,
          result := some ⟨"DenyPublicLoadBalancers received a non-LoadBalancer type (" ++ service.specType ++ ")"⟩ }
  else if ignoredNamespaces.contains service.ns then
    .ok { newDefaultDenyResponse with
          allowed := true,
          result := some ⟨"allowing admission: " ++ service.ns ++ " namespace is whitelisted"⟩ }
  else
    match ilbAnnotations provider with
    | none =>
        .error "internal load balancer annotations for the given provider are not supported"
    | some expectedAnnotations =>
        if (ensureHasAnnotations expectedAnnotations service.annotations).2 = false then
          .error (kind ++ " objects of type: LoadBalancer without an internal-only annotation cannot be deployed to this cluster")
        else
          .ok { newDefaultDenyResponse with allowed := true }

/-- Source `DenyIngresses`: only Kind Ingress is ever inspected; the
namespace allow-list is walked with exact string equality; otherwise the
function fails with the fixed denial text (kind interpolated, and kind is
the literal Ingress inside that branch). -/
def DenyIngresses (ignoredNamespaces : List String) (kind : String)
    (ingressNamespace : String) : Except String AdmissionResponse :=
  if kind = "Ingress" then
    if ignoredNamespaces.contains ingressNamespace then
      .ok { newDefaultDenyResponse with
            allowed := true,
            result := some ⟨"allowing admission: " ++ ingressNamespace ++ " namespace is whitelisted"⟩ }
    else
      .error (kind ++ " objects cannot be deployed to this cluster")
  else
    .ok { newDefaultDenyResponse with allowed := true }

/-- Decoded view of the workload fields read by EnforcePodAnnotations:
outer metadata namespace and annotations, and the embedded pod template
metadata namespace and annotations. -/
structure WorkloadObj where
  ns : String
  annotations : Annotations
  templateNs : String
  templateAnnotations : Annotations
deriving DecidableEq

/-- Go renders the missing-annotations map with `%v`; entry order is kept
as accumulated since no claim depends on the rendering order. -/
def goFmtEntries : Annotations → String
  | [] => ""
  | [(k, v)] => k ++ ":" ++ v
  | (k, v) :: rest => k ++ ":" ++ v ++ " " ++ goFmtEntries rest

/-- Go map `%v` rendering used in the EnforcePodAnnotations denial text. -/
def goFmtMissing (m : Annotations) : String :=
  "map[" ++ goFmtEntries m ++ "]"

/-- The required-annotations loop of EnforcePodAnnotations: a nil matchFunc
aborts with that key; an absent key records `key was not found`; a present
key whose predicate rejects records `value did not match`.  Iteration
follows the list order of the configuration. -/
def enforceLoop : List (String × Option (String → Bool)) → Annotations → Except String Annotations
  | [], _ => .ok []
  | (k, none) :: _, _ => .error k
  | (k, some matchFunc) :: rest, ann =>
    match annLookup ann k with
    | none =>
        match enforceLoop rest ann with
        | .error e => .error e
        | .ok missing => .ok ((k, "key was not found") :: missing)
    | some existingVal =>
        if matchFunc existingVal then enforceLoop rest ann
        else
          match enforceLoop rest ann with
          | .error e => .error e
          | .ok missing => .ok ((k, "value did not match") :: missing)

/-- The tail of EnforcePodAnnotations shared by every supported Kind after
the switch has selected a namespace and an annotations map: namespace
allow-list, then the required-annotations loop, then the batch denial. -/
def enforceOn (ignoredNamespaces : List String)
    (requiredAnnotations : List (String × Option (String → Bool)))
    (ns : String) (ann : Annotations) : Except String AdmissionResponse :=
  if ignoredNamespaces.contains ns then
    .ok { newDefaultDenyResponse with
          allowed := true,
          result := some ⟨"allowing admission: " ++ ns ++ " namespace is whitelisted"⟩ }
  else
    match enforceLoop requiredAnnotations ann with
    | .error k => .error ("cannot validate annotations (" ++ k ++ ") with a nil matchFunc")
    | .ok missing =>
        if 0 < missing.length then
          .error (podDeniedError ++ " " ++ goFmtMissing missing)
        else
          .ok { newDefaultDenyResponse with allowed := true }

/-- Source `EnforcePodAnnotations`.  The switch over Kind selects which
namespace and annotations feed the shared tail.  Faithful quirks kept from
the source: the Deployment branch evaluates `deployment.GetNamespace()`
but discards the result, so the namespace variable keeps its zero value;
the Job branch reads the namespace of the pod template rather than of the
Job; every workload-controller branch reads the template annotations. -/
def EnforcePodAnnotations (ignoredNamespaces : List String)
    (requiredAnnotations : List (String × Option (String → Bool)))
    (kind : String) (obj : WorkloadObj) : Except String AdmissionResponse :=
  if kind = "Pod" then
    enforceOn ignoredNamespaces requiredAnnotations obj.ns obj.annotations
  else if kind = "Deployment" then
    enforceOn ignoredNamespaces requiredAnnotations "" obj.templateAnnotations
  else if kind = "StatefulSet" then
    enforceOn ignoredNamespaces requiredAnnotations obj.ns obj.templateAnnotations
  else if kind = "DaemonSet" then
    enforceOn ignoredNamespaces requiredAnnotations obj.ns obj.templateAnnotations
  else if kind = "Job" then
    enforceOn ignoredNamespaces requiredAnnotations obj.templateNs obj.templateAnnotations
  else
    .error (unsupportedKindError ++ " " ++ kind)

/-- Decoded view of the Pod fields read by AddAutoscalerAnnotation. -/
structure PodObj where
  ns : String
  annotations : Annotations
deriving DecidableEq

/-- Source `updateAnnotation`: for each added pair, take the add branch
when the target map is nil or lacks a non-empty value for the key
(resetting the target to an empty map, as the source does), and the
replace branch otherwise. -/
def updateAnnotation (target : Annotations) (added : Annotations) : List PatchOperation :=
  (added.foldl
    (fun (st : List PatchOperation × Annotations) kv =>
      if annGetD st.2 kv.1 = "" then
        (st.1 ++ [{ op := "add", path := "/metadata/annotations", value := .map [(kv.1, kv.2)] }], [])
      else
        (st.1 ++ [{ op := "replace", path := "/metadata/annotations/" ++ kv.1, value := .str kv.2 }], st.2))
    ([], target)).1

/-- Source `GetPatch`: the patch operations that `json.Marshal` would
serialize (the marshal step itself cannot fail on this data). -/
def GetPatch (pod : PodObj) : List PatchOperation :=
  updateAnnotation pod.annotations [(clusterAutoScalerAnnotationKey, "true")]

/-- Source AddAutoscalerAnnotation: non-Pod kinds are allowed with an
explanatory message before the namespace allow-list is consulted; then
the allow-list, then the presence check on the autoscaler key (presence
with any value counts), and finally the patch response. -/
def AddAutoscalerAnnotation (ignoredNamespaces : List String) (kind : String)
    (pod : PodObj) : Except String AdmissionResponse :=
  if kind ≠ "Pod" then
    .ok { newDefaultDenyResponse with
          allowed := true,
          result := some ⟨"object was not a pod, " ++ kind⟩ }
  else if ignoredNamespaces.contains pod.ns then
    .ok { newDefaultDenyResponse with
          allowed := true,
          result := some ⟨"allowing admission: " ++ pod.ns ++ " namespace is whitelisted"⟩ }
  else if (annLookup pod.annotations clusterAutoScalerAnnotationKey).isSome then
    .ok { newDefaultDenyResponse with
          allowed := true,
          result := some ⟨"object already has auto scaler annotation"⟩ }
  else
    .ok { allowed := true,
          patch := some (GetPatch pod),
          result := some ⟨"Updating annotations"⟩,
          patchType := some "JSONPatch" }

/-- Model of the inbound `admission.AdmissionRequest`: only the UID is
read by the handler itself. -/
structure AdmissionRequestMsg where
  uid : String
deriving DecidableEq

/-- Model of the decoded inbound `admission.AdmissionReview`: the Request
pointer may be nil. -/
structure IncomingReview where
  request : Option AdmissionRequestMsg
deriving DecidableEq

/-- Outcome of calling the configured AdmitFunc: a response, a nil
response with a nil error, or an error carrying its text. -/
inductive AdmitOutcome where
  | ok (resp : AdmissionResponse)
  | okNil
  | err (msg : String)

/-- Model of the outbound `admission.AdmissionReview` envelope. -/
structure OutgoingReview where
  kind : String
  apiVersion : String
  response : AdmissionResponse
deriving DecidableEq

/-- Errors surfaced by handleAdmissionRequest: either a typed
`AdmissionError` with Allowed, Message and Debug fields, or a plain
`xerrors.New` error. -/
inductive HandlerError where
  | admission (allowed : Bool) (message : String) (debug : String)
  | plain (msg : String)
deriving DecidableEq

/-- Model of `err.Error()`: AdmissionError formats itself as
`admission error: MSG (allowed: BOOL)`; a plain error is its text. -/
def HandlerError.toText : HandlerError → String
  | .admission allowed msg _ =>
      "admission error: " ++ msg ++ " (allowed: " ++ (if allowed then "true" else "false") ++ ")"
  | .plain msg => msg

/-- The Allowed override applied by ServeHTTP when the error is an
AdmissionError; a plain error leaves the default false in place. -/
def HandlerError.allowedFlag : HandlerError → Bool
  | .admission allowed _ _ => allowed
  | .plain _ => false

/-- Model of an `AdmissionHandler` value together with its environment:
the configured byte limit, the lazily built deserializer (as an abstract
decoder over the body bytes), the configured AdmitFunc, and an abstract
view of `json.Marshal` failure on outgoing reviews (`none` = marshal
succeeds). -/
structure AdmissionHandler where
  limitBytes : Int
  decode : List Char → Except String IncomingReview
  admitFunc : IncomingReview → AdmitOutcome
  marshalError : OutgoingReview → Option String

/-- Model of the inbound HTTP request body stream: the bytes it would
deliver and an optional read error from the underlying connection. -/
structure HttpRequestBody where
  data : List Char
  readError : Option String

/-- What the handler writes: the status code and, when a body is written,
the review that was marshalled into it (nothing is written on 500). -/
structure HttpResult where
  status : Nat
  written : Option OutgoingReview
deriving DecidableEq

/-- The default applied by ServeHTTP when LimitBytes is not positive:
1024*1024*1024 bytes (1 GiB; the source comment says 1MB but the value is
a gibibyte). -/
def effectiveLimit (limitBytes : Int) : Int :=
  if limitBytes ≤ 0 then 1024 * 1024 * 1024 else limitBytes

/-- The handler with the byte-limit default applied, as ServeHTTP does
before delegating. -/
def effHandler (ah : AdmissionHandler) : AdmissionHandler :=
  { ah with limitBytes := effectiveLimit ah.limitBytes }

/-- Model of `ioutil.ReadAll(io.LimitReader(r.Body, limit))`: a failing
underlying read surfaces as an error, and a successful read yields at
most `limit` bytes, silently dropping the rest of the stream. -/
def readBody (ah : AdmissionHandler) (r : HttpRequestBody) : List Char :=
  r.data.take ah.limitBytes.toNat

/-- Source `handleAdmissionRequest`: read the body under the limit, check
for an empty body, decode, require the Request, run the AdmitFunc, check
for a nil response, copy the UID, wrap, marshal and write 200.  `.ok`
means the success response was written; `.error` is the returned error
that ServeHTTP will encode. -/
def handleAdmissionRequest (ah : AdmissionHandler) (r : HttpRequestBody) :
    Except HandlerError OutgoingReview :=
  match r.readError with
  | some e => .error (.admission false "could not read the request body" e)
  | none =>
    let body := readBody ah r
    if body.length = 0 then
      .error (.admission false "no request body was received" "the request body was nil/len == 0")
    else
      match ah.decode body with
      | .error e => .error (.admission false "decoding the review request failed" e)
      | .ok incomingReview =>
        match incomingReview.request with
        | none => .error (.plain "received invalid request: no AdmissionReview was found")
        | some request =>
          match ah.admitFunc incomingReview with
          | .err msg => .error (.admission false msg "the AdmitFunc returned an error")
          | .okNil => .error (.admission false "the AdmitFunc returned an empty AdmissionReview" "")
          | .ok reviewResponse =>
            let review : OutgoingReview :=
              { kind := "AdmissionReview",
                apiVersion := "admission.k8s.io/v1",
                response := { reviewResponse with uid := request.uid } }
            match ah.marshalError review with
            | some e => .error (.admission false "marshalling the review response failed" e)
            | none => .ok review

/-- The error review ServeHTTP constructs on the failure path: a fresh
response (empty UID), Allowed defaulted to false then overridden by the
AdmissionError flag, and Result.Message set to the error text. -/
def errorReview (e : HandlerError) : OutgoingReview :=
  { kind := "AdmissionReview",
    apiVersion := "admission.k8s.io/v1",
    response := { uid := "", allowed := e.allowedFlag, result := some ⟨e.toText⟩ } }

/-- Source `ServeHTTP`: apply the byte-limit default, delegate, and on
error marshal the error review, writing 200 with it on success and a bare
500 when even that marshal fails. -/
def ServeHTTP (ah : AdmissionHandler) (r : HttpRequestBody) : HttpResult :=
  match handleAdmissionRequest (effHandler ah) r with
  | .ok review => { status := 200, written := some review }
  | .error e =>
    match (effHandler ah).marshalError (errorReview e) with
    | some _ => { status := 500, written := none }
    | none => { status := 200, written := some (errorReview e) }

/-- Model of the `*http.Server` fields NewServer inspects. -/
structure HttpServerCfg where
  hasTLSConfig : Bool
deriving DecidableEq

/-- Model of the constructed AdmissionServer: only the grace period is
observable at construction time. -/
structure AdmissionServer where
  gracePeriodSeconds : Nat
deriving DecidableEq

/-- Source `defaultGracePeriod` (15 seconds). -/
def defaultGracePeriod : Nat := 15

/-- The TLS warning text logged by NewServer when no TLSConfig is set. -/
def tlsWarning : String :=
  "the provided *http.Server has a nil TLSConfig, which will prevent it from being reached as an in-cluster Service"

/-- Source `NewServer`: nil server and nil logger are rejected in that
order; a nil TLSConfig only logs a warning; the result carries the
default grace period.  The logger is modelled by its presence, and the
messages it would receive are returned alongside the server. -/
def NewServer (srv : Option HttpServerCfg) (loggerPresent : Bool) :
    Except String (AdmissionServer × List String) :=
  match srv with
  | none => .error "a non-nil *http.Server must be provided"
  | some s =>
    if loggerPresent = false then
      .error "a non-nil log.Logger must be provided"
    else
      .ok ({ gracePeriodSeconds := defaultGracePeriod },
           if s.hasTLSConfig then [] else [tlsWarning])

/-! Helper lemmas (shared, not tied to a single claim). -/

/-- When the single required annotation is present with the exact value,
ensureHasAnnotations reports success. -/
lemma ensureHasAnnotations_singleton_present {k v : String} {ann : Annotations}
    (h : annLookup ann k = some v) :
    (ensureHasAnnotations [(k, v)] ann).2 = true := by
  simp [ensureHasAnnotations, h]

/-- When the single required annotation is absent or carries a different
value, ensureHasAnnotations reports failure. -/
lemma ensureHasAnnotations_singleton_absent {k v : String} {ann : Annotations}
    (h : annLookup ann k ≠ some v) :
    (ensureHasAnnotations [(k, v)] ann).2 = false := by
  cases hl : annLookup ann k with
  | none => simp [ensureHasAnnotations, hl]
  | some existingVal =>
    have hne : existingVal ≠ v := by
      rintro rfl
      exact h hl
    simp [ensureHasAnnotations, hl, hne]

/-! Claim theorems. -/

/-- Claim C7: DenyIngresses allows every non-Ingress Kind; an Ingress in
an exactly matching allow-listed namespace is allowed with an explanatory
message; every other Ingress fails with the fixed denial text. -/
theorem denyIngresses_spec (ign : List String) (kind ns : String) :
    (kind ≠ "Ingress" →
      DenyIngresses ign kind ns = .ok { newDefaultDenyResponse with allowed := true }) ∧
    (kind = "Ingress" → ign.contains ns = true →
      DenyIngresses ign kind ns =
        .ok { newDefaultDenyResponse with
              allowed := true,
              result := some ⟨"allowing admission: " ++ ns ++ " namespace is whitelisted"⟩ }) ∧
    (kind = "Ingress" → ign.contains ns = false →
      DenyIngresses ign kind ns = .error "Ingress objects cannot be deployed to this cluster") := by
  refine ⟨?_, ?_, ?_⟩
  · intro h
    simp [DenyIngresses, h]
  · intro hk hns
    subst hk
    have hmem : ns ∈ ign := by simpa using hns
    simp [DenyIngresses, hmem]
  · intro hk hns
    subst hk
    have hmem : ns ∉ ign := by simpa using hns
    simp [DenyIngresses, hmem]

/-- Witness for C7: an Ingress whose namespace differs from the allow-list
entry only by case is denied with the fixed message. -/
theorem denyIngresses_spec_witness :
    DenyIngresses ["istio-system"] "Ingress" "ISTIO-SYSTEM" =
      .error "Ingress objects cannot be deployed to this cluster" :=
  (denyIngresses_spec ["istio-system"] "Ingress" "ISTIO-SYSTEM").2.2 rfl (by decide)

/-- A LoadBalancer Service in the default namespace with no annotations. -/
def lbNoAnnSvc : ServiceObj :=
  { ns := "default", annotations := [], specType := "LoadBalancer" }

/-- Counterexample for C3: the denial text is a fixed sentence that does
not name the missing or invalid annotations; for a GCP-configured check
the required key does not occur anywhere in the message. -/
theorem lb_denial_message_cex :
    DenyPublicLoadBalancers [] GCP "Service" lbNoAnnSvc =
      .error "Service objects of type: LoadBalancer without an internal-only annotation cannot be deployed to this cluster" ∧
    ¬ List.IsInfix ("cloud.google.com/load-balancer-type").toList
        ("Service objects of type: LoadBalancer without an internal-only annotation cannot be deployed to this cluster").toList := by
  refine ⟨rfl, by decide⟩

/-- Claim C3 amended: non-Service Kinds and non-LoadBalancer Services are
allowed; outside the allow-list, admission is allowed iff the annotations
contain the exact provider pair, and a denial carries the fixed message
naming only the Kind (not the missing annotations); providers outside the
four known constants fail with the unsupported-provider error. -/
theorem denyPublicLoadBalancers_amended (ign : List String) (prov : Int)
    (kind : String) (svc : ServiceObj) :
    (¬ (kind = "Service" ∧ svc.specType = "LoadBalancer") →
      DenyPublicLoadBalancers ign prov kind svc =
        .ok { newDefaultDenyResponse with
              allowed := true,
              result := some ⟨"DenyPublicLoadBalancers received a non-LoadBalancer type (" ++ svc.specType ++ ")"⟩ }) ∧
    (kind = "Service" → svc.specType = "LoadBalancer" → ign.contains svc.ns = false →
      ∀ k v, ilbAnnotations prov = some [(k, v)] →
        (annLookup svc.annotations k = some v →
          DenyPublicLoadBalancers ign prov kind svc =
            .ok { newDefaultDenyResponse with allowed := true }) ∧
        (annLookup svc.annotations k ≠ some v →
          DenyPublicLoadBalancers ign prov kind svc =
            .error "Service objects of type: LoadBalancer without an internal-only annotation cannot be deployed to this cluster")) ∧
    (ilbAnnotations prov = none ↔ ¬ (prov = GCP ∨ prov = Azure ∨ prov = AWS ∨ prov = OpenStack)) ∧
    (ilbAnnotations prov = none → kind = "Service" → svc.specType = "LoadBalancer" →
      ign.contains svc.ns = false →
      DenyPublicLoadBalancers ign prov kind svc =
        .error "internal load balancer annotations for the given provider are not supported") := by
  refine ⟨?_, ?_, ?_, ?_⟩
  · intro h
    rw [DenyPublicLoadBalancers, if_pos (not_and_or.mp h)]
  · intro hk hs hns k v hilb
    subst hk
    constructor
    · intro hfound
      rw [DenyPublicLoadBalancers]
      rw [if_neg (by simp [hs]), if_neg (by simpa using hns), hilb]
      simp [ensureHasAnnotations_singleton_present hfound]
    · intro hmiss
      rw [DenyPublicLoadBalancers]
      rw [if_neg (by simp [hs]), if_neg (by simpa using hns), hilb]
      simp [ensureHasAnnotations_singleton_absent hmiss]
  · constructor
    · intro h hc
      rcases hc with rfl | rfl | rfl | rfl <;>
        simp [ilbAnnotations, GCP, Azure, AWS, OpenStack] at h
    · intro h
      push_neg at h
      obtain ⟨h0, h1, h2, h3⟩ := h
      simp [ilbAnnotations, h0, h1, h2, h3]
  · intro hnone hk hs hns
    subst hk
    rw [DenyPublicLoadBalancers]
    rw [if_neg (by simp [hs]), if_neg (by simpa using hns), hnone]

/-- A LoadBalancer Service carrying the AWS internal annotation. -/
def awsAnnotatedSvc : ServiceObj :=
  { ns := "default",
    annotations := [("service.beta.kubernetes.io/aws-load-balancer-internal", "0.0.0.0/0")],
    specType := "LoadBalancer" }

/-- Witness for C3 amended: supplying the AWS annotation while configured
for Azure denies with the fixed message. -/
theorem denyPublicLoadBalancers_amended_witness :
    DenyPublicLoadBalancers [] Azure "Service" awsAnnotatedSvc =
      .error "Service objects of type: LoadBalancer without an internal-only annotation cannot be deployed to this cluster" :=
  ((denyPublicLoadBalancers_amended [] Azure "Service" awsAnnotatedSvc).2.1 rfl rfl rfl
    "service.beta.kubernetes.io/azure-load-balancer-internal" "true" (by decide)).2 (by decide)

/-- Claim C4: for the workload-controller Kinds the outer annotations are
irrelevant (only the pod template annotations are checked); a Deployment
whose outer metadata carries the required annotation but whose template
does not is denied (the allow-list side condition excludes the empty
string because the source discards the Deployment namespace, see C5); and
every unknown Kind is unconditionally denied with the unsupported-kind
error, before the namespace allow-list is even consulted. -/
theorem enforcePodAnnotations_template_level (ign : List String)
    (req : List (String × Option (String → Bool))) (kind : String) (obj : WorkloadObj) :
    (kind = "Deployment" ∨ kind = "StatefulSet" ∨ kind = "DaemonSet" ∨ kind = "Job" →
      ∀ outerAnn,
        EnforcePodAnnotations ign req kind obj =
        EnforcePodAnnotations ign req kind { obj with annotations := outerAnn }) ∧
    (∀ k f v, ign.contains "" = false →
      annLookup obj.annotations k = some v →
      annLookup obj.templateAnnotations k = none →
      EnforcePodAnnotations ign [(k, some f)] "Deployment" obj =
        .error (podDeniedError ++ " " ++ goFmtMissing [(k, "key was not found")])) ∧
    (kind ≠ "Pod" → kind ≠ "Deployment" → kind ≠ "StatefulSet" → kind ≠ "DaemonSet" →
      kind ≠ "Job" →
      EnforcePodAnnotations ign req kind obj =
        .error (unsupportedKindError ++ " " ++ kind)) := by
  refine ⟨?_, ?_, ?_⟩
  · intro hk outerAnn
    rcases hk with h | h | h | h <;> subst h <;> rfl
  · intro k f v hign houter htmpl
    rw [EnforcePodAnnotations]
    rw [if_neg (by decide), if_pos rfl]
    rw [enforceOn]
    rw [if_neg (by simpa using hign)]
    simp [enforceLoop, htmpl]
  · intro h1 h2 h3 h4 h5
    rw [EnforcePodAnnotations,
        if_neg h1, if_neg h2, if_neg h3, if_neg h4, if_neg h5]

/-- Predicate requiring a buildVersion value to start with v. -/
def bvPred : String → Bool := fun s => s.startsWith "v"

/-- A Deployment whose outer metadata carries buildVersion but whose pod
template carries no annotations. -/
def annotatedOuterDeployment : WorkloadObj :=
  { ns := "default",
    annotations := [("buildVersion", "v1.0.0")],
    templateNs := "",
    templateAnnotations := [] }

/-- Witness for C4: such a Deployment is denied with the batch message. -/
theorem enforcePodAnnotations_template_level_witness :
    EnforcePodAnnotations ["kube-system"] [("buildVersion", some bvPred)] "Deployment"
        annotatedOuterDeployment =
      .error (podDeniedError ++ " " ++ goFmtMissing [("buildVersion", "key was not found")]) :=
  (enforcePodAnnotations_template_level ["kube-system"] [] "Deployment"
      annotatedOuterDeployment).2.1 "buildVersion" bvPred "v1.0.0" (by decide) rfl rfl

/-- Claim C5 (code bug): a Deployment submitted in an allow-listed
namespace is still denied, because the source evaluates and discards the
Deployment namespace, leaving the compared namespace empty; the same
configuration with Kind Pod is whitelisted as the spec describes. -/
theorem deployment_namespace_whitelist_bug :
    EnforcePodAnnotations ["kube-system"] [("buildVersion", some bvPred)] "Deployment"
        { ns := "kube-system", annotations := [], templateNs := "",
          templateAnnotations := [] } =
      .error (podDeniedError ++ " " ++ goFmtMissing [("buildVersion", "key was not found")]) ∧
    EnforcePodAnnotations ["kube-system"] [("buildVersion", some bvPred)] "Pod"
        { ns := "kube-system", annotations := [], templateNs := "",
          templateAnnotations := [] } =
      .ok { newDefaultDenyResponse with
            allowed := true,
            result := some ⟨"allowing admission: kube-system namespace is whitelisted"⟩ } := by
  constructor
  · rfl
  · rfl

/-- A Pod with a non-empty annotations map lacking the autoscaler key. -/
def otherAnnotatedPod : PodObj :=
  { ns := "default", annotations := [("foo", "bar")] }

/-- Counterexample for C6: a Pod that already has a non-empty annotations
map (without the autoscaler key) receives an add of the whole map, not
the claimed replace of the single key. -/
theorem autoscaler_patch_op_cex :
    AddAutoscalerAnnotation [] "Pod" otherAnnotatedPod =
      .ok { allowed := true,
            patch := some [{ op := "add", path := "/metadata/annotations",
                             value := .map [(clusterAutoScalerAnnotationKey, "true")] }],
            result := some ⟨"Updating annotations"⟩,
            patchType := some "JSONPatch" } ∧
    ("add" : String) ≠ "replace" :=
  ⟨rfl, by decide⟩

/-- Claim C6 amended: non-Pod Kinds are allowed with a message and no
patch; a Pod already carrying the key is allowed with no patch; a Pod
lacking the key receives Allowed true, PatchType JSONPatch and a single
add of the whole annotations map with the key set to true, regardless of
whether an annotations map already exists. -/
theorem addAutoscalerAnnotation_amended (ign : List String) (kind : String) (pod : PodObj) :
    (kind ≠ "Pod" →
      AddAutoscalerAnnotation ign kind pod =
        .ok { newDefaultDenyResponse with
              allowed := true,
              result := some ⟨"object was not a pod, " ++ kind⟩ }) ∧
    (kind = "Pod" → ign.contains pod.ns = false →
      (annLookup pod.annotations clusterAutoScalerAnnotationKey).isSome →
      AddAutoscalerAnnotation ign kind pod =
        .ok { newDefaultDenyResponse with
              allowed := true,
              result := some ⟨"object already has auto scaler annotation"⟩ }) ∧
    (kind = "Pod" → ign.contains pod.ns = false →
      annLookup pod.annotations clusterAutoScalerAnnotationKey = none →
      AddAutoscalerAnnotation ign kind pod =
        .ok { allowed := true,
              patch := some [{ op := "add", path := "/metadata/annotations",
                               value := .map [(clusterAutoScalerAnnotationKey, "true")] }],
              result := some ⟨"Updating annotations"⟩,
              patchType := some "JSONPatch" }) := by
  refine ⟨?_, ?_, ?_⟩
  · intro h
    rw [ AddAutoscalerAnnotation, if_pos h]
  · intro hk hns hsome
    subst hk
    rw [ AddAutoscalerAnnotation]
    rw [if_neg (by simp), if_neg (by simpa using hns), if_pos hsome]
  · intro hk hns hnone
    subst hk
    rw [ AddAutoscalerAnnotation]
    rw [if_neg (by simp), if_neg (by simpa using hns), if_neg (by simp [hnone])]
    simp [GetPatch, updateAnnotation, annGetD, hnone]

/-- Witness for C6 amended: the patch branch at a concrete Pod with an
existing unrelated annotation. -/
theorem addAutoscalerAnnotation_amended_witness :
    AddAutoscalerAnnotation ["kube-system"] "Pod" otherAnnotatedPod =
      .ok { allowed := true,
            patch := some [{ op := "add", path := "/metadata/annotations",
                             value := .map [(clusterAutoScalerAnnotationKey, "true")] }],
            result := some ⟨"Updating annotations"⟩,
            patchType := some "JSONPatch" } :=
  (addAutoscalerAnnotation_amended ["kube-system"] "Pod" otherAnnotatedPod).2.2 rfl
    (by decide) (by decide)

/-- Claim C10: whenever a Pod reaches patch construction (key absent, not
whitelisted), the generated patch is exactly one add of the whole
annotations map with the single key set to true; in particular the
replace branch of updateAnnotation is never taken on reachable inputs. -/
theorem getPatch_always_add (ign : List String) (pod : PodObj)
    (hns : ign.contains pod.ns = false)
    (hkey : annLookup pod.annotations clusterAutoScalerAnnotationKey = none) :
    GetPatch pod =
      [{ op := "add", path := "/metadata/annotations",
         value := .map [(clusterAutoScalerAnnotationKey, "true")] }] ∧
    AddAutoscalerAnnotation ign "Pod" pod =
      .ok { allowed := true,
            patch := some (GetPatch pod),
            result := some ⟨"Updating annotations"⟩,
            patchType := some "JSONPatch" } := by
  constructor
  · simp [GetPatch, updateAnnotation, annGetD, hkey]
  · rw [ AddAutoscalerAnnotation]
    rw [if_neg (by simp), if_neg (by simpa using hns), if_neg (by simp [hkey])]

/-- Witness for C10 at a Pod whose annotations map is non-empty. -/
theorem getPatch_always_add_witness :
    GetPatch otherAnnotatedPod =
      [{ op := "add", path := "/metadata/annotations",
         value := .map [(clusterAutoScalerAnnotationKey, "true")] }] :=
  (getPatch_always_add [] otherAnnotatedPod (by decide) (by decide)).1

/-- Claim C9: NewServer rejects a missing server and a missing logger,
and otherwise returns the server with the default 15 second grace period,
warning exactly when no TLS configuration is present. -/
theorem newServer_spec (s : HttpServerCfg) (b : Bool) :
    NewServer none b = .error "a non-nil *http.Server must be provided" ∧
    NewServer (some s) false = .error "a non-nil log.Logger must be provided" ∧
    NewServer (some s) true =
      .ok ({ gracePeriodSeconds := defaultGracePeriod },
           if s.hasTLSConfig then [] else [tlsWarning]) ∧
    defaultGracePeriod = 15 := by
  refine ⟨rfl, rfl, ?_, rfl⟩
  rw [NewServer]
  simp

/-- Every error handleAdmissionRequest can return carries Allowed false:
each AdmissionError it constructs passes false, and the plain error is
not an AdmissionError at all. -/
lemma handle_error_allowed_false (ah : AdmissionHandler) (r : HttpRequestBody)
    (e : HandlerError) (h : handleAdmissionRequest ah r = .error e) :
    e.allowedFlag = false := by
  simp only [handleAdmissionRequest] at h
  repeat' split at h
  all_goals first
    | (simp only [Except.error.injEq] at h; subst h; rfl)
    | simp at h

/-- Claim C1: whenever the request-handling operation fails, the error
carries Allowed false; the error review is a well-formed AdmissionReview
(Kind and APIVersion set, Allowed false, Result.Message the error text)
written with HTTP 200 when its marshalling succeeds; and HTTP 500 occurs
exactly when marshalling that error review fails. -/
theorem serveHTTP_error_envelope (ah : AdmissionHandler) (r : HttpRequestBody) :
    (∀ e, handleAdmissionRequest (effHandler ah) r = .error e →
      e.allowedFlag = false ∧
      errorReview e =
        { kind := "AdmissionReview", apiVersion := "admission.k8s.io/v1",
          response := { uid := "", allowed := false, result := some ⟨e.toText⟩ } } ∧
      ServeHTTP ah r =
        (match (effHandler ah).marshalError (errorReview e) with
          | some _ => { status := 500, written := none }
          | none => { status := 200, written := some (errorReview e) })) ∧
    ((ServeHTTP ah r).status = 500 →
      ∃ e m, handleAdmissionRequest (effHandler ah) r = .error e ∧
        (effHandler ah).marshalError (errorReview e) = some m) := by
  constructor
  · intro e h
    have hflag := handle_error_allowed_false (effHandler ah) r e h
    refine ⟨hflag, ?_, ?_⟩
    · simp [errorReview, hflag]
    · simp only [ServeHTTP, h]
  · intro h500
    cases hh : handleAdmissionRequest (effHandler ah) r with
    | ok review =>
      simp only [ServeHTTP, hh] at h500
      exact absurd h500 (by decide)
    | error e =>
      cases hm : (effHandler ah).marshalError (errorReview e) with
      | none =>
        simp only [ServeHTTP, hh, hm] at h500
        exact absurd h500 (by decide)
      | some m =>
        exact ⟨e, m, rfl, hm⟩

/-- Generic allow response used by the handler fixtures. -/
def allowResp : AdmissionResponse := { allowed := true, result := some ⟨""⟩ }

/-- Handler fixture whose decoder always fails. -/
def decodeFailAh : AdmissionHandler :=
  { limitBytes := 64,
    decode := fun _ => .error "bad payload",
    admitFunc := fun _ => .ok allowResp,
    marshalError := fun _ => none }

/-- A five-byte request body with no read error. -/
def helloBody : HttpRequestBody := { data := "hello".toList, readError := none }

/-- The error the decode-failure fixture produces. -/
def decodeFailErr : HandlerError :=
  .admission false "decoding the review request failed" "bad payload"

/-- Witness for C1: the decode-failure path writes HTTP 200 with the
error review. -/
theorem serveHTTP_error_envelope_witness :
    ServeHTTP decodeFailAh helloBody =
      { status := 200, written := some (errorReview decodeFailErr) } := by
  have h := (serveHTTP_error_envelope decodeFailAh helloBody).1 decodeFailErr rfl
  exact h.2.2

/-- Claim C2 amended: the inbound UID is copied into the response only on
the success path; every error-path review is written with an empty UID. -/
theorem uid_propagation_success_only (ah : AdmissionHandler) (r : HttpRequestBody) :
    (∀ review, handleAdmissionRequest (effHandler ah) r = .ok review →
      ∃ incoming request,
        (effHandler ah).decode (readBody (effHandler ah) r) = .ok incoming ∧
        incoming.request = some request ∧
        review.response.uid = request.uid) ∧
    (∀ e, handleAdmissionRequest (effHandler ah) r = .error e →
      (errorReview e).response.uid = "") := by
  constructor
  · intro review h
    simp only [handleAdmissionRequest] at h
    split at h
    · simp at h
    · split at h
      · simp at h
      · split at h
        · simp at h
        · rename_i incoming hdec
          split at h
          · simp at h
          · rename_i request hreq
            split at h
            · simp at h
            · simp at h
            · rename_i resp hadmit
              split at h
              · simp at h
              · refine ⟨incoming, request, hdec, hreq, ?_⟩
                cases h
                rfl
  · intro e h
    rfl

/-- Handler fixture that decodes every body to a review with UID abc and
admits it. -/
def okDecodeAh : AdmissionHandler :=
  { limitBytes := 64,
    decode := fun _ => .ok { request := some { uid := "abc" } },
    admitFunc := fun _ => .ok allowResp,
    marshalError := fun _ => none }

/-- The success review the okDecodeAh fixture writes. -/
def successReview : OutgoingReview :=
  { kind := "AdmissionReview", apiVersion := "admission.k8s.io/v1",
    response := { allowResp with uid := "abc" } }

/-- Witness for C2 amended: on the success path the written UID is the
decoded request UID. -/
theorem uid_propagation_success_only_witness :
    ∃ incoming request,
      (effHandler okDecodeAh).decode (readBody (effHandler okDecodeAh) helloBody) =
        .ok incoming ∧
      incoming.request = some request ∧
      successReview.response.uid = request.uid :=
  (uid_propagation_success_only okDecodeAh helloBody).1 successReview rfl

/-- Handler fixture whose AdmitFunc rejects with an error. -/
def errAdmitAh : AdmissionHandler :=
  { limitBytes := 64,
    decode := fun _ => .ok { request := some { uid := "abc" } },
    admitFunc := fun _ => .err "policy violation",
    marshalError := fun _ => none }

/-- The error the errAdmitAh fixture produces. -/
def errAdmitErr : HandlerError :=
  .admission false "policy violation" "the AdmitFunc returned an error"

/-- Counterexample for C2: the inbound review has Request UID abc, yet the
review written on the Decision Function error path carries an empty UID. -/
theorem uid_dropped_on_error_path_cex :
    errAdmitAh.decode (readBody (effHandler errAdmitAh) helloBody) =
      .ok { request := some { uid := "abc" } } ∧
    ServeHTTP errAdmitAh helloBody =
      { status := 200, written := some (errorReview errAdmitErr) } ∧
    (errorReview errAdmitErr).response.uid = "" ∧
    ("" : String) ≠ "abc" :=
  ⟨rfl, rfl, rfl, by decide⟩

/-- Handler fixture with a two-byte limit whose decoder accepts exactly
the two-byte prefix as a complete review. -/
def truncAh : AdmissionHandler :=
  { limitBytes := 2,
    decode := fun body =>
      if body.length = 2 then .ok { request := some { uid := "u" } }
      else .error "malformed",
    admitFunc := fun _ => .ok allowResp,
    marshalError := fun _ => none }

/-- A four-byte body, exceeding the two-byte limit. -/
def oversizedBody : HttpRequestBody := { data := "abcd".toList, readError := none }

/-- The review the truncation fixture writes. -/
def truncReview : OutgoingReview :=
  { kind := "AdmissionReview", apiVersion := "admission.k8s.io/v1",
    response := { allowResp with uid := "u" } }

/-- Claim C8 (code bug): the default limit is indeed 1 GiB, but a body
exceeding the limit is not rejected: ReadAll over LimitReader silently
truncates it to the limit, and the truncated prefix is decoded and
admitted as a complete object with HTTP 200. -/
theorem oversized_body_truncated_bug :
    effectiveLimit 0 = 1073741824 ∧
    (effHandler truncAh).limitBytes.toNat < oversizedBody.data.length ∧
    readBody (effHandler truncAh) oversizedBody = "ab".toList ∧
    ServeHTTP truncAh oversizedBody = { status := 200, written := some truncReview } ∧
    truncReview.response.allowed = true :=
  ⟨rfl, by decide, rfl, rfl, rfl⟩

end AdmissionControl
